import Mathlib

/-!
Verification of the Huntarr orchestration service against its specification.

The Python sources are shallowly embedded: each relevant function is
translated into an executable Lean definition, with network I/O, the
random generator, the dedup store and date parsing made explicit
parameters (an HTTP call becomes an explicit outcome value, `random.sample`
becomes the prefix of an RNG-chosen permutation, and so on).  Logging is a
side effect with no influence on control flow and is not modelled.
-/

/- ===== String helpers modelling the Python string operations used ===== -/

/-- Python `s.startswith(p)`, on the underlying character lists. -/
def strStarts (s p : String) : Bool := p.data.isPrefixOf s.data

/-- Containment of one character list inside another (helper for `strContains`). -/
def listSub (n : List Char) : List Char → Bool
  | [] => n.isEmpty
  | c :: t => n.isPrefixOf (c :: t) || listSub n t

/-- Python `needle in hay` for strings. -/
def strContains (hay needle : String) : Bool := listSub needle.data hay.data

/-- Python slicing `s[:n]`. -/
def strTake (n : Nat) (s : String) : String := String.mk (s.data.take n)

/-- Whitespace stripped by Python `str.strip()` (the ASCII whitespace actually
occurring in config values). -/
def isPySpace (c : Char) : Bool := c = ' ' || c = '\t' || c = '\n' || c = '\r'

/-- Python `s.strip()`. -/
def trimStr (s : String) : String :=
  String.mk (((s.data.dropWhile isPySpace).reverse.dropWhile isPySpace).reverse)

/-- Python truthiness of an optional string (`None` and `""` are falsy). -/
def pyTruthy (o : Option String) : Bool :=
  match o with
  | none => false
  | some s => !(s = "")

/-- The scheme test `api_url.startswith("http://") or api_url.startswith("https://")`
shared by the clients and resolvers. -/
def hasScheme (url : String) : Bool :=
  strStarts url "http://" || strStarts url "https://"

/-- Python `random.sample(pool, k)`: `k` distinct elements of the pool, modelled
as the `k`-prefix of an RNG-chosen permutation of the pool (theorems assume the
`shuffled` argument is a permutation of the pool, which is exactly the
`random.sample` contract). -/
def pySample {α : Type} (shuffled : List α) (k : Nat) : List α := shuffled.take k

/- ===== src/primary/background.py, app_specific_loop (per-instance part) ===== -/

namespace Background

/-- Line 229 of `background.py`:
`if min_download_queue_size < 0 or download_queue_size <= min_download_queue_size:`. -/
def queueGateOpen (min_download_queue_size download_queue_size : Int) : Bool :=
  min_download_queue_size < 0 || download_queue_size ≤ min_download_queue_size

/-- Whether the missing phase runs for an instance (lines 229-231:
the queue gate, then `if process_missing and hunt_missing_count > 0`;
`process_missing` is always bound for a supported app type). -/
def runsMissingPhase (min_download_queue_size download_queue_size hunt_missing_count : Int) : Bool :=
  queueGateOpen min_download_queue_size download_queue_size && 0 < hunt_missing_count

/-- Whether the upgrade phase runs for an instance (lines 229 and 260:
the queue gate, then `if process_upgrades and hunt_upgrade_count > 0`). -/
def runsUpgradePhase (min_download_queue_size download_queue_size hunt_upgrade_count : Int) : Bool :=
  queueGateOpen min_download_queue_size download_queue_size && 0 < hunt_upgrade_count

end Background

/- ===== src/primary/apps/radarr/api.py ===== -/

/-- Outcome of one HTTP GET as seen by the callers: an exception
(connection error / timeout), or a response with a status code and a flag
recording whether the body parses as JSON. -/
inductive HttpResult where
  | exc : HttpResult
  | resp (status : Nat) (jsonOk : Bool) : HttpResult
deriving DecidableEq, Repr

/-- `requests.Response.raise_for_status()` raises exactly on 4xx/5xx codes. -/
def raiseForStatusFails (status : Nat) : Bool := 400 ≤ status

namespace Radarr

/-- `radarr/api.py  check_connection` (lines 269-295): empty URL false,
missing scheme false, then GET `/api/v3/system/status`; every exception is
caught and becomes false; after `raise_for_status` succeeds the function
returns True without touching the body. -/
def check_connection (api_url : String) (result : HttpResult) : Bool :=
  if api_url = "" then false
  else if !(hasScheme api_url) then false
  else
    match result with
    | .exc => false
    | .resp status _ => !(raiseForStatusFails status)

/-- Outcome of the queue fetch in `get_download_queue_size`. -/
inductive QueueFetch where
  | failure : QueueFetch
  | ok (totalRecords : Nat) : QueueFetch
deriving DecidableEq, Repr

/-- `radarr/api.py  get_download_queue_size` (lines 86-116): `totalRecords` on
success, sentinel `-1` on any failure. -/
def get_download_queue_size : QueueFetch → Int
  | .failure => -1
  | .ok n => n

/-- `radarr/api.py  movie_search` (lines 231-267). Returns
(networkCalled, commandId): empty ID list returns None without a call;
dry-run mode returns the placeholder 999999 without a call; otherwise the
POST happens and the command id comes from the response (`postResp` is the
`id` field of the parsed response when present). -/
def movie_search (dryRun : Bool) (movie_ids : List Int) (postResp : Option Nat) :
    Bool × Option Nat :=
  if movie_ids = [] then (false, none)
  else if dryRun then (false, some 999999)
  else (true, postResp)

end Radarr

namespace Readarr

/-- `readarr/api.py  check_connection` (lines 24-50): identical logic to the
radarr client (URL checks, GET system/status, True on `raise_for_status`
success, False on every exception), against `/api/v1`. -/
def check_connection (api_url : String) (result : HttpResult) : Bool :=
  if api_url = "" then false
  else if !(hasScheme api_url) then false
  else
    match result with
    | .exc => false
    | .resp status _ => !(raiseForStatusFails status)

/-- `readarr/api.py  book_search` (lines 283-303). It consults no dry-run
flag and immediately calls `arr_request`, whose first statement (line 110)
is `settings = load_settings(app_type)` — but `load_settings` is never
imported in `readarr/api.py`, and that line sits before `arr_request`'s
`try` block, so every call raises `NameError` before any network activity.
Modelled as (networkCalled, uncaught-exception name): no POST is ever made
and no command ID is ever returned.  The `dryRun` and `book_ids` parameters
are deliberately unused, exactly as the source never reads a dry-run flag
and fails before using the IDs. -/
def book_search (dryRun : Bool) (book_ids : List Int) : Bool × String :=
  (false, "NameError")

end Readarr

/- ===== src/primary/apps/sonarr.py and whisparr.py, test_connection ===== -/

/-- Outcome of the GET performed by a `test-connection` route handler.
`requests.exceptions.Timeout` and `ConnectionError` are caught before the
generic `RequestException`; a 4xx/5xx response surfaces as an `HTTPError`
carrying the response, folded here into `resp` with `raiseForStatusFails`.
For a response, `jsonParses` records whether `.json()` succeeds, `msgField`
is `error_details.get("message", "No details")` of the parsed error body,
and `bodyText` is the raw text. -/
inductive ReqOutcome where
  | timeout : ReqOutcome
  | connError (details : String) : ReqOutcome
  | resp (status : Nat) (jsonParses : Bool) (msgField : String) (bodyText : String) : ReqOutcome
deriving DecidableEq, Repr

/-- The suffix both handlers append to an HTTPError message (lines 121-127 of
`sonarr.py`): the error body's message if it parses as JSON, else the first
200 characters of the text when non-empty. -/
def httpErrorSuffix (jsonParses : Bool) (msgField bodyText : String) : String :=
  if jsonParses then " - " ++ msgField
  else if bodyText = "" then "" else " - Response: " ++ strTake 200 bodyText

/-- The categorized message for a `ConnectionError` (lines 91-99 of
`sonarr.py`), parameterized by the app name used in the refused-connection
message. -/
def connErrorMessage (appName details : String) : String :=
  if strContains details "Name or service not known" || strContains details "getaddrinfo failed" then
    "DNS resolution failed - check hostname"
  else if strContains details "Connection refused" then
    "Connection refused - check if " ++ appName ++ " is running and the port is correct"
  else
    "Connection error - check hostname and port"

/-- The categorized message for an `HTTPError` with a response (lines
108-127 of `sonarr.py`); the generic `str(e)` of the exception is a
parameter since it is produced by the library. -/
def httpErrorMessage (appName : String) (status : Nat) (excStr : String)
    (jsonParses : Bool) (msgField bodyText : String) : String :=
  (if status = 401 then "Authentication failed: Invalid API key"
   else if status = 403 then "Access forbidden: Check API key permissions"
   else if status = 404 then "API endpoint not found: Check API URL"
   else if 500 ≤ status then
     "" ++ appName ++ " server error (HTTP " ++ toString status ++ "): The " ++ appName ++ " server is experiencing issues"
   else "Connection failed: " ++ excStr)
  ++ httpErrorSuffix jsonParses msgField bodyText

namespace SonarrRoute

/-- `sonarr.py  test_connection` (lines 20-137) as (HTTP status, message):
400 on missing URL/key or missing scheme, then the GET of
`/api/v3/system/status`; 504 on timeout, 502 with a categorized message on
a connection error, 500 with a categorized message on an HTTP error
response, 500 on a success response whose body is not JSON, and 200 on
success. -/
def test_connection (api_url api_key : String) (api_timeout : Nat) (excStr : String)
    (outcome : ReqOutcome) : Nat × String :=
  if api_url = "" || api_key = "" then
    (400, "API URL and API Key are required")
  else if !(hasScheme api_url) then
    (400, "API URL must start with http:// or https://")
  else
    match outcome with
    | .timeout => (504, "Connection timed out after " ++ toString api_timeout ++ " seconds")
    | .connError details => (502, connErrorMessage "Sonarr" details ++ ": " ++ details)
    | .resp status jsonParses msgField bodyText =>
      if raiseForStatusFails status then
        (500, httpErrorMessage "Sonarr" status excStr jsonParses msgField bodyText)
      else if jsonParses then
        (200, "Successfully connected to Sonarr API")
      else
        (500, "Invalid JSON response from Sonarr API")

end SonarrRoute

namespace WhisparrRoute

/-- `whisparr.py  test_connection` (lines 15-118): same handler logic as the
sonarr route, with Whisparr naming. -/
def test_connection (api_url api_key : String) (api_timeout : Nat) (excStr : String)
    (outcome : ReqOutcome) : Nat × String :=
  if api_url = "" || api_key = "" then
    (400, "API URL and API Key are required")
  else if !(hasScheme api_url) then
    (400, "API URL must start with http:// or https://")
  else
    match outcome with
    | .timeout => (504, "Connection timed out after " ++ toString api_timeout ++ " seconds")
    | .connError details => (502, connErrorMessage "Whisparr" details ++ ": " ++ details)
    | .resp status jsonParses msgField bodyText =>
      if raiseForStatusFails status then
        (500, httpErrorMessage "Whisparr" status excStr jsonParses msgField bodyText)
      else if jsonParses then
        (200, "Successfully connected to Whisparr API")
      else
        (500, "Invalid JSON response from Whisparr API")

end WhisparrRoute

/- ===== Instance configuration resolvers ===== -/

/-- One entry of a settings document's `instances` list, with the fields the
resolvers read (`instance.get(...)`; absent keys are `none`). -/
structure InstanceCfg where
  enabled : Option Bool
  api_url : Option String
  api_key : Option String
  name : Option String
deriving DecidableEq, Repr

/-- The parts of a per-app settings document the resolvers read: the
`instances` list when present, and the legacy top-level url/key pair. -/
structure AppSettingsDoc where
  instances : Option (List InstanceCfg)
  api_url : Option String
  api_key : Option String
deriving DecidableEq, Repr

/-- An instance as returned by a resolver (connection fields only; the
sonarr resolver additionally copies the remaining settings keys through
unchanged, which carries no information for these claims). -/
structure ResolvedInstance where
  instance_name : String
  api_url : String
  api_key : String
deriving DecidableEq, Repr

namespace Sonarr

/-- `sonarr.py  get_configured_instances` (lines 164-198): keeps enabled
entries whose `api_url` and `api_key` are truthy, copying the URL and key
through unchanged (no strip, no scheme correction); falls back to the
legacy top-level pair named "Default" when the `instances` list is absent
or empty. -/
def get_configured_instances (settings : AppSettingsDoc) : List ResolvedInstance :=
  let legacy : List ResolvedInstance :=
    if pyTruthy settings.api_url && pyTruthy settings.api_key then
      [{ instance_name := "Default",
         api_url := settings.api_url.getD "",
         api_key := settings.api_key.getD "" }]
    else []
  match settings.instances with
  | some insts =>
    if insts = [] then legacy
    else
      insts.filterMap (fun i =>
        if (i.enabled.getD true) && pyTruthy i.api_url && pyTruthy i.api_key then
          some { instance_name := i.name.getD "Default",
                 api_url := i.api_url.getD "",
                 api_key := i.api_key.getD "" }
        else none)
  | none => legacy

end Sonarr

/-- The scheme auto-correction in the readarr resolver (lines 35-38 and
64-67 of `readarr/__init__.py`): a truthy URL without an http(s) scheme
gets `http://` prepended (with a logged warning). -/
def fixScheme (api_url : String) : String :=
  if !(api_url = "") && !(hasScheme api_url) then "http://" ++ api_url else api_url

namespace ReadarrCfg

/-- `readarr/__init__.py  get_configured_instances` (lines 15-82): for each
entry, the URL and key are stripped, a missing scheme is auto-corrected via
`fixScheme`, and the entry is kept only when enabled with non-empty URL and
key; falls back to the legacy top-level pair (same strip and scheme fix)
named "Default". -/
def get_configured_instances (settings : AppSettingsDoc) : List ResolvedInstance :=
  let legacy : List ResolvedInstance :=
    let api_url := fixScheme (trimStr (settings.api_url.getD ""))
    let api_key := trimStr (settings.api_key.getD "")
    if !(api_url = "") && !(api_key = "") then
      [{ instance_name := "Default", api_url := api_url, api_key := api_key }]
    else []
  match settings.instances with
  | some insts =>
    if insts = [] then legacy
    else
      insts.filterMap (fun i =>
        let api_url := fixScheme (trimStr (i.api_url.getD ""))
        let api_key := trimStr (i.api_key.getD "")
        if (i.enabled.getD true) && !(api_url = "") && !(api_key = "") then
          some { instance_name := i.name.getD "Default", api_url := api_url, api_key := api_key }
        else none)
  | none => legacy

end ReadarrCfg

/- ===== src/primary/apps/lidarr/missing.py and upgrade.py ===== -/

/-- An album record with the fields the lidarr processors read (`id`,
`releaseDate`; display fields such as title and artist feed only log
lines). -/
structure LidarrAlbum where
  id : Int
  releaseDate : Option String
deriving DecidableEq, Repr

namespace Lidarr

/-- Result of `datetime.fromisoformat` on a non-empty date string (after the
`Z` → `+00:00` replacement of line 97 of `missing.py`): a `ValueError`, an
offset-naive datetime (no UTC offset in the string, e.g. plain
`YYYY-MM-DD`), or an offset-aware datetime at moment `t`. -/
inductive PyDate where
  | valueError : PyDate
  | naive : PyDate
  | aware (t : Int) : PyDate
deriving DecidableEq, Repr

/-- One iteration of the future-release filter loop (lines 92-107 of
`missing.py`): `some true` keeps the item, `some false` skips it, `none` is
an uncaught exception.  A falsy `releaseDate` keeps the item; a string
raising `ValueError` is caught and the item kept (with a logged warning);
an offset-aware parse keeps the item iff `release_date <= now`; an
offset-naive parse reaches `release_date <= now` where `now` is aware
(line 89 uses `datetime.now(timezone.utc)`), and comparing naive with
aware raises `TypeError`, which `except ValueError` does NOT catch. -/
def keepAlbum (parse : String → PyDate) (now : Int) (item : LidarrAlbum) : Option Bool :=
  match item.releaseDate with
  | none => some true
  | some s =>
    if s = "" then some true
    else
      match parse s with
      | .valueError => some true
      | .naive => none
      | .aware release_date => some (release_date ≤ now)

/-- The accumulation loop over `missing_items` (lines 92-107): items kept by
`keepAlbum` are collected in order; the first uncaught `TypeError` aborts
the loop, and with it the whole `process_missing_albums` call (the
exception propagates to the function-level handler of line 198, which
returns False) — modelled as `none`, discarding the partial list. -/
def filterFutureLoop (parse : String → PyDate) (now : Int) :
    List LidarrAlbum → Option (List LidarrAlbum)
  | [] => some []
  | item :: rest =>
    match keepAlbum parse now item with
    | none => none
    | some true => Option.map (fun l => item :: l) (filterFutureLoop parse now rest)
    | some false => filterFutureLoop parse now rest

/-- The future-release filter of `process_missing_albums` (lines 87-113):
when `skip_future_releases` is set, the loop runs (possibly aborting on an
uncaught `TypeError`); otherwise the list passes through. -/
def filterFutureAlbums (skip_future_releases : Bool) (parse : String → PyDate)
    (now : Int) (missing_items : List LidarrAlbum) : Option (List LidarrAlbum) :=
  if skip_future_releases then filterFutureLoop parse now missing_items
  else some missing_items

/-- Selection of entities to search in `process_missing_albums` (lines
146-153): `random.sample(target_entities, min(len(target_entities), n))`
in random mode, the list prefix `target_entities[:n]` otherwise. -/
def selectMissingEntities (random_missing : Bool) (shuffled target_entities : List Int)
    (total_items_to_process : Nat) : List Int :=
  if random_missing then
    pySample shuffled (min target_entities.length total_items_to_process)
  else
    target_entities.take total_items_to_process

/-- The dedup filter of `process_cutoff_upgrades` (lines 97-104 of
`upgrade.py`): albums whose stringified id the stateful manager reports as
processed are dropped. -/
def unprocessedAlbums (is_processed : String → Bool) (cutoff_unmet_albums : List LidarrAlbum) :
    List LidarrAlbum :=
  cutoff_unmet_albums.filter (fun album => !(is_processed (toString album.id)))

/-- Selection in `process_cutoff_upgrades` (line 113): always
`random.sample(unprocessed_albums, min(len(unprocessed_albums), hunt_upgrade_items))`. -/
def selectUpgradeAlbums (shuffled unprocessed_albums : List LidarrAlbum)
    (hunt_upgrade_items : Nat) : List LidarrAlbum :=
  pySample shuffled (min unprocessed_albums.length hunt_upgrade_items)

end Lidarr

/- ===== src/primary/apps/radarr/upgrade.py ===== -/

/-- A movie record with the field the radarr upgrade loop acts on. -/
structure Movie where
  id : Int
deriving DecidableEq, Repr

namespace Radarr

/-- Line 56 of `upgrade.py`: `unprocessed_movies = upgrade_eligible_data` —
the radarr upgrade processor applies no dedup filtering whatsoever before
selection. -/
def unprocessedMovies (upgrade_eligible_data : List Movie) : List Movie :=
  upgrade_eligible_data

/-- Selection in `process_cutoff_upgrades` (lines 62-67):
`random.sample(unprocessed_movies, min(hunt_upgrade_movies, len(unprocessed_movies)))`
in random mode, the prefix `unprocessed_movies[:hunt_upgrade_movies]` otherwise. -/
def selectUpgradeMovies (random_upgrades : Bool) (shuffled unprocessed_movies : List Movie)
    (hunt_upgrade_movies : Nat) : List Movie :=
  if random_upgrades then
    pySample shuffled (min hunt_upgrade_movies unprocessed_movies.length)
  else
    unprocessed_movies.take hunt_upgrade_movies

/-- The number of `movie_search` calls made by the trigger loop of
`process_cutoff_upgrades` (lines 73-110) over the selected movies:
`stop` is the stop predicate sampled at each iteration (indexed by `k`),
`searchOk` tells whether the search command for a movie is accepted,
`acc` is `processed_count`; the loop breaks on a stop signal before
searching and breaks after a search once `processed_count >= hunt`. -/
def upgradeSearchCalls (stop : Nat → Bool) (searchOk : Movie → Bool)
    (hunt_upgrade_movies : Nat) (k acc : Nat) : List Movie → Nat
  | [] => 0
  | movie :: rest =>
    if stop k then 0
    else
      let acc2 := if searchOk movie then acc + 1 else acc
      1 + (if hunt_upgrade_movies ≤ acc2 then 0
           else upgradeSearchCalls stop searchOk hunt_upgrade_movies (k + 1) acc2 rest)

end Radarr

/- ===== src/primary/apps/readarr/upgrade.py ===== -/

/-- A book record with the fields the readarr upgrade processor reads for
filtering, ordering and searching. -/
structure Book where
  id : Int
  title : String
deriving DecidableEq, Repr

/-- The sequential ordering used by the readarr upgrade processor:
`unprocessed_books.sort(key=lambda x: x.get("title", ""))`. -/
def titleLe (a b : Book) : Prop := a.title ≤ b.title

instance : DecidableRel titleLe :=
  fun a b => inferInstanceAs (Decidable (a.title ≤ b.title))

namespace ReadarrUp

/-- The dedup filter of `process_cutoff_upgrades` (line 80 of
`readarr/upgrade.py`): books whose id is in the processed-upgrades state
file are dropped. -/
def unprocessedBooks (processed_upgrade_ids : List Int) (upgrade_books : List Book) :
    List Book :=
  upgrade_books.filter (fun book => !(processed_upgrade_ids.contains book.id))

/-- Ordering step (lines 89-95): `random.shuffle` in random mode (modelled by
the RNG-chosen permutation `shuffled`), a stable sort by title otherwise. -/
def orderBooks (RANDOM_UPGRADES : Bool) (shuffled unprocessed_books : List Book) : List Book :=
  if RANDOM_UPGRADES then shuffled
  else List.insertionSort titleLe unprocessed_books

/-- Selection (line 103):
`unprocessed_books[:min(len(unprocessed_books), HUNT_UPGRADE_BOOKS)]` applied
to the shuffled/sorted list. -/
def booksToProcess (RANDOM_UPGRADES : Bool) (shuffled unprocessed_books : List Book)
    (HUNT_UPGRADE_BOOKS : Nat) : List Book :=
  let ordered := orderBooks RANDOM_UPGRADES shuffled unprocessed_books
  ordered.take (min ordered.length HUNT_UPGRADE_BOOKS)

end ReadarrUp

/- ===== src/primary/apps/requestarr/__init__.py ===== -/

/-- A catalog (TMDB) search result with the fields the streaming search
reads for filtering, identity and ordering; display-only fields (title,
year, overview, poster/backdrop paths, vote average) do not influence the
claims and are omitted. Popularity is modelled as an integer score. -/
structure CatalogItem where
  media_type : Option String
  id : Int
  popularity : Int
deriving DecidableEq, Repr

/-- A streamed result with the fields relevant to ordering and identity. -/
structure BasicResult where
  tmdb_id : Int
  media_type : String
  popularity : Int
  availability : String
deriving DecidableEq, Repr

/-- Descending-popularity order used by
`processed_items.sort(key=..., reverse=True)`. -/
def popLe (a b : BasicResult) : Prop := b.popularity ≤ a.popularity

instance : DecidableRel popLe :=
  fun a b => inferInstanceAs (Decidable (b.popularity ≤ a.popularity))

instance : IsTotal BasicResult popLe :=
  ⟨fun a b => le_total b.popularity a.popularity⟩

instance : IsTrans BasicResult popLe :=
  ⟨fun _ _ _ h1 h2 => le_trans h2 h1⟩

/-- One event yielded by the streaming generator: a basic result or an
availability update. -/
inductive StreamEvent where
  | basic (r : BasicResult) : StreamEvent
  | update (r : BasicResult) : StreamEvent
deriving DecidableEq, Repr

/-- The item a stream event refers to. -/
def eventId : StreamEvent → Int
  | .basic r => r.tmdb_id
  | .update r => r.tmdb_id

namespace Requestarr

/-- Line 120: the catalog search type chosen from the app type. -/
def searchTypeFor (app_type : String) : String :=
  if app_type = "radarr" then "movie"
  else if app_type = "sonarr" then "tv"
  else "multi"

/-- Lines 154-157: `item_type = item.get("media_type")`, defaulted by search
type when falsy. -/
def itemTypeOf (media_type : String) (item : CatalogItem) : String :=
  match item.media_type with
  | some t => if t = "" then (if media_type = "movie" then "movie" else "tv") else t
  | none => if media_type = "movie" then "movie" else "tv"

/-- Lines 149-163: skip person results, and results whose type does not
match the app type. -/
def keepCatalogItem (app_type media_type : String) (item : CatalogItem) : Bool :=
  if item.media_type = some "person" then false
  else
    let item_type := itemTypeOf media_type item
    if app_type = "radarr" && !(item_type = "movie") then false
    else if app_type = "sonarr" && !(item_type = "tv") then false
    else true

/-- Lines 183-200: the basic result built before any availability check,
always carrying status "checking". -/
def mkBasicResult (media_type : String) (item : CatalogItem) : BasicResult :=
  { tmdb_id := item.id,
    media_type := itemTypeOf media_type item,
    popularity := item.popularity,
    availability := "checking" }

/-- Lines 146-202: the `processed_items` list (basic results of the kept
catalog items, in catalog order). -/
def processedItems (app_type : String) (results : List CatalogItem) : List BasicResult :=
  (results.filter (keepCatalogItem app_type (searchTypeFor app_type))).map
    (mkBasicResult (searchTypeFor app_type))

/-- Lines 204-206: stable sort by popularity descending, capped at 20. -/
def sortedCapped (app_type : String) (results : List CatalogItem) : List BasicResult :=
  (List.insertionSort popLe (processedItems app_type results)).take 20

/-- `search_media_with_availability_stream` (lines 115-239) as the list of
yielded events: all basic results first (lines 208-210), then one
availability update per item in the same order (lines 212-235). `avail`
models `_get_availability_status` by item id and type; the except-branch
that yields an error status on a failed check is folded into `avail`. -/
def search_media_with_availability_stream (avail : Int → String → String)
    (app_type : String) (results : List CatalogItem) : List StreamEvent :=
  let items := sortedCapped app_type results
  items.map StreamEvent.basic
    ++ items.map (fun b => StreamEvent.update { b with availability := avail b.tmdb_id b.media_type })

end Requestarr

/- ===== Concrete example inputs used by witness theorems ===== -/

/-- Example dedup store: exactly the id string "5" is recorded processed. -/
def exIsProcessed (s : String) : Bool := s = "5"

/-- Example cutoff-unmet albums. -/
def exAlbums : List LidarrAlbum := [{ id := 5, releaseDate := none }, { id := 6, releaseDate := none }]

/-- Example upgrade books. -/
def exBooks : List Book := [{ id := 1, title := "b" }, { id := 2, title := "a" }]

/-- Example processed-upgrade id list. -/
def exProcessedIds : List Int := [1]

/-- Example date parser for the counterexample: the plain-date string
`"2100-01-01"` parses (as `datetime.fromisoformat` does) to an offset-naive
datetime; everything else raises `ValueError`. -/
def exParseNaive (s : String) : Lidarr.PyDate :=
  if s = "2100-01-01" then Lidarr.PyDate.naive else Lidarr.PyDate.valueError

/-- Example missing albums for the counterexample: one with a naive-parsing
future date, one undated. -/
def exNaiveAlbums : List LidarrAlbum :=
  [{ id := 1, releaseDate := some "2100-01-01" },
   { id := 2, releaseDate := none }]

/-- Example date parser for the witness: the ISO-8601-with-`Z` string
parses (after the `Z` replacement) to an offset-aware future moment;
everything else raises `ValueError`. -/
def exParseAware (s : String) : Lidarr.PyDate :=
  if s = "2100-01-01T00:00:00Z" then Lidarr.PyDate.aware 100
  else Lidarr.PyDate.valueError

/-- Example missing albums for the witness: one aware-parsing future date,
one undated, one with an unparsable date. -/
def exAwareAlbums : List LidarrAlbum :=
  [{ id := 1, releaseDate := some "2100-01-01T00:00:00Z" },
   { id := 2, releaseDate := none },
   { id := 3, releaseDate := some "notadate" }]

/-- The list the witness run keeps: the undated and unparsable-dated albums,
in order, without the future-dated one. -/
def exKeptAlbums : List LidarrAlbum :=
  [{ id := 2, releaseDate := none },
   { id := 3, releaseDate := some "notadate" }]

/- ===== Helper lemmas ===== -/

/-- The trigger loop never searches more movies than were selected. -/
theorem upgradeSearchCalls_le (stop : Nat → Bool) (searchOk : Movie → Bool)
    (hunt : Nat) : ∀ (l : List Movie) (k acc : Nat),
    Radarr.upgradeSearchCalls stop searchOk hunt k acc l ≤ l.length := by
  intro l
  induction l with
  | nil => intro k acc; simp [Radarr.upgradeSearchCalls]
  | cons m rest ih =>
    intro k acc
    simp only [Radarr.upgradeSearchCalls, List.length_cons]
    by_cases hst : stop k = true
    · simp [hst]
    · simp only [Bool.not_eq_true] at hst
      simp only [hst, Bool.false_eq_true, if_false]
      by_cases hok : searchOk m = true
      · simp only [hok, if_true]
        have := ih (k + 1) (acc + 1)
        split
        · omega
        · omega
      · simp only [Bool.not_eq_true] at hok
        simp only [hok, Bool.false_eq_true, if_false]
        have := ih (k + 1) acc
        split
        · omega
        · omega

/-- With no stop signal and a quota at least the selection size, the trigger
loop searches every selected movie. -/
theorem upgradeSearchCalls_eq (stop : Nat → Bool) (searchOk : Movie → Bool)
    (hunt : Nat) (hstop : ∀ k, stop k = false) :
    ∀ (l : List Movie) (k acc : Nat), acc + l.length ≤ hunt →
    Radarr.upgradeSearchCalls stop searchOk hunt k acc l = l.length := by
  intro l
  induction l with
  | nil => intro k acc _; simp [Radarr.upgradeSearchCalls]
  | cons m rest ih =>
    intro k acc hle
    simp only [List.length_cons] at hle
    simp only [Radarr.upgradeSearchCalls, hstop k, Bool.false_eq_true, if_false,
      List.length_cons]
    by_cases hok : searchOk m = true
    · simp only [hok, if_true]
      by_cases hbr : hunt ≤ acc + 1
      · have hr0 : rest.length = 0 := by omega
        simp [hbr, hr0]
      · simp only [if_neg hbr]
        rw [ih (k + 1) (acc + 1) (by omega)]
        omega
    · simp only [Bool.not_eq_true] at hok
      simp only [hok, Bool.false_eq_true, if_false]
      have hbr : ¬(hunt ≤ acc) := by omega
      simp only [if_neg hbr]
      rw [ih (k + 1) acc (by omega)]
      omega

/-- Prepending `http://` yields a URL with an explicit scheme. -/
theorem hasScheme_http_append (s : String) : hasScheme ("http://" ++ s) = true := by
  have hdata : ("http://" ++ s).data = "http://".data ++ s.data := by
    cases s with
    | mk l => rfl
  simp only [hasScheme, strStarts, hdata, Bool.or_eq_true]
  left
  exact List.isPrefixOf_iff_prefix.mpr (List.prefix_append _ _)

/-- A non-empty URL produced by `fixScheme` always carries a scheme. -/
theorem fixScheme_hasScheme (s : String) (h : ¬(fixScheme s = "")) :
    hasScheme (fixScheme s) = true := by
  by_cases h0 : s = ""
  · subst h0; simp [fixScheme] at h
  · by_cases hs : hasScheme s = true
    · simpa [fixScheme, h0, hs] using hs
    · simp only [Bool.not_eq_true] at hs
      simp only [fixScheme, h0, hs]
      simpa using hasScheme_http_append s

/-- Every album the future-release loop keeps came from its input and was
accepted by `keepAlbum`. -/
theorem filterFutureLoop_mem_keep (parse : String → Lidarr.PyDate) (now : Int) :
    ∀ (l kept : List LidarrAlbum), Lidarr.filterFutureLoop parse now l = some kept →
    ∀ a ∈ kept, a ∈ l ∧ Lidarr.keepAlbum parse now a = some true := by
  intro l
  induction l with
  | nil =>
    intro kept hres a ha
    simp only [Lidarr.filterFutureLoop, Option.some.injEq] at hres
    subst hres
    cases ha
  | cons item rest ih =>
    intro kept hres a ha
    simp only [Lidarr.filterFutureLoop] at hres
    cases hk : Lidarr.keepAlbum parse now item with
    | none => rw [hk] at hres; cases hres
    | some b =>
      cases b with
      | true =>
        rw [hk] at hres
        cases hrest : Lidarr.filterFutureLoop parse now rest with
        | none => rw [hrest] at hres; cases hres
        | some kept2 =>
          rw [hrest] at hres
          simp only [Option.map_some', Option.some.injEq] at hres
          subst hres
          rcases List.mem_cons.mp ha with rfl | hmem
          · exact ⟨List.mem_cons_self _ _, hk⟩
          · obtain ⟨h1, h2⟩ := ih kept2 hrest a hmem
            exact ⟨List.mem_cons_of_mem _ h1, h2⟩
      | false =>
        rw [hk] at hres
        obtain ⟨h1, h2⟩ := ih kept hres a ha
        exact ⟨List.mem_cons_of_mem _ h1, h2⟩

/-- Every input album accepted by `keepAlbum` is in the loop's kept list. -/
theorem filterFutureLoop_keep_mem (parse : String → Lidarr.PyDate) (now : Int) :
    ∀ (l kept : List LidarrAlbum), Lidarr.filterFutureLoop parse now l = some kept →
    ∀ a ∈ l, Lidarr.keepAlbum parse now a = some true → a ∈ kept := by
  intro l
  induction l with
  | nil => intro kept _ a ha; cases ha
  | cons item rest ih =>
    intro kept hres a ha hka
    simp only [Lidarr.filterFutureLoop] at hres
    cases hk : Lidarr.keepAlbum parse now item with
    | none => rw [hk] at hres; cases hres
    | some b =>
      cases b with
      | true =>
        rw [hk] at hres
        cases hrest : Lidarr.filterFutureLoop parse now rest with
        | none => rw [hrest] at hres; cases hres
        | some kept2 =>
          rw [hrest] at hres
          simp only [Option.map_some', Option.some.injEq] at hres
          subst hres
          rcases List.mem_cons.mp ha with rfl | hmem
          · exact List.mem_cons_self _ _
          · exact List.mem_cons_of_mem _ (ih kept2 hrest a hmem hka)
      | false =>
        rw [hk] at hres
        rcases List.mem_cons.mp ha with rfl | hmem
        · rw [hka] at hk; cases hk
        · exact ih kept hres a hmem hka

/-- When no item aborts `keepAlbum`, the loop completes. -/
theorem filterFutureLoop_total (parse : String → Lidarr.PyDate) (now : Int) :
    ∀ l : List LidarrAlbum, (∀ a ∈ l, ¬(Lidarr.keepAlbum parse now a = none)) →
    ¬(Lidarr.filterFutureLoop parse now l = none) := by
  intro l
  induction l with
  | nil => intro _ h; cases h
  | cons item rest ih =>
    intro hall hres
    simp only [Lidarr.filterFutureLoop] at hres
    cases hk : Lidarr.keepAlbum parse now item with
    | none => exact hall item (List.mem_cons_self _ _) hk
    | some b =>
      cases b with
      | true =>
        rw [hk] at hres
        cases hrest : Lidarr.filterFutureLoop parse now rest with
        | none =>
          exact ih (fun a ha => hall a (List.mem_cons_of_mem _ ha)) hrest
        | some kept2 => rw [hrest] at hres; cases hres
      | false =>
        rw [hk] at hres
        exact ih (fun a ha => hall a (List.mem_cons_of_mem _ ha)) hres

/- ===== Claim theorems ===== -/

/-- Claim C3: for every instance in a worker cycle (with both hunt quotas
positive, the regime in which the phases are configured at all), the missing
phase and the upgrade phase both run if and only if
`minimum_download_queue_size` is negative or the fetched queue size is at
most the threshold; in particular with threshold 5 and queue size 6 both
phases are skipped, and with queue size 6 replaced by 5 both proceed. -/
theorem c3_queue_gate (minQ qs hm hu : Int) (hhm : 0 < hm) (hhu : 0 < hu) :
    ((Background.runsMissingPhase minQ qs hm = true ∧
      Background.runsUpgradePhase minQ qs hu = true) ↔ (minQ < 0 ∨ qs ≤ minQ))
    ∧ Background.runsMissingPhase 5 6 hm = false
    ∧ Background.runsUpgradePhase 5 6 hu = false
    ∧ Background.runsMissingPhase 5 5 hm = true
    ∧ Background.runsUpgradePhase 5 5 hu = true := by
  simp only [Background.runsMissingPhase, Background.runsUpgradePhase,
    Background.queueGateOpen, Bool.and_eq_true, Bool.or_eq_true, decide_eq_true_eq,
    decide_eq_false_iff_not, Bool.and_eq_false_iff, Bool.or_eq_false_iff]
  refine ⟨?_, ?_, ?_, ?_, ?_⟩
  · constructor
    · rintro ⟨⟨h1, _⟩, _⟩; exact h1
    · intro h; exact ⟨⟨h, hhm⟩, ⟨h, hhu⟩⟩
  · left; omega
  · left; omega
  · exact ⟨by omega, hhm⟩
  · exact ⟨by omega, hhu⟩

/-- Witness for C3 at threshold 5, queue size 5, quotas 1. -/
theorem c3_queue_gate_witness :
    ((Background.runsMissingPhase 5 5 1 = true ∧
      Background.runsUpgradePhase 5 5 1 = true) ↔ ((5 : Int) < 0 ∨ (5 : Int) ≤ 5))
    ∧ Background.runsMissingPhase 5 6 1 = false
    ∧ Background.runsUpgradePhase 5 6 1 = false
    ∧ Background.runsMissingPhase 5 5 1 = true
    ∧ Background.runsUpgradePhase 5 5 1 = true :=
  c3_queue_gate 5 5 1 1 (by decide) (by decide)

/-- Claim C10: the movie client's failed queue fetch returns the sentinel
-1, which is at most every non-negative threshold, so the gate admits the
instance and both phases (with positive quotas) still run. -/
theorem c10_failed_fetch_gate (minQ hm hu : Int) (h0 : 0 ≤ minQ)
    (hhm : 0 < hm) (hhu : 0 < hu) :
    Radarr.get_download_queue_size Radarr.QueueFetch.failure = -1
    ∧ Background.queueGateOpen minQ (Radarr.get_download_queue_size Radarr.QueueFetch.failure) = true
    ∧ Background.runsMissingPhase minQ (Radarr.get_download_queue_size Radarr.QueueFetch.failure) hm = true
    ∧ Background.runsUpgradePhase minQ (Radarr.get_download_queue_size Radarr.QueueFetch.failure) hu = true := by
  refine ⟨rfl, ?_, ?_, ?_⟩ <;>
    simp only [Radarr.get_download_queue_size, Background.runsMissingPhase,
      Background.runsUpgradePhase, Background.queueGateOpen, Bool.and_eq_true,
      Bool.or_eq_true, decide_eq_true_eq] <;>
    omega

/-- Witness for C10 at threshold 5, quotas 1. -/
theorem c10_failed_fetch_gate_witness :
    Radarr.get_download_queue_size Radarr.QueueFetch.failure = -1
    ∧ Background.queueGateOpen 5 (Radarr.get_download_queue_size Radarr.QueueFetch.failure) = true
    ∧ Background.runsMissingPhase 5 (Radarr.get_download_queue_size Radarr.QueueFetch.failure) 1 = true
    ∧ Background.runsUpgradePhase 5 (Radarr.get_download_queue_size Radarr.QueueFetch.failure) 1 = true :=
  c10_failed_fetch_gate 5 1 1 (by decide) (by decide) (by decide)

/-- Claim C4 counterexample: both clients return true for a 200 response
whose body is NOT parseable JSON — `check_connection` never parses the
body — refuting "true only when the GET yields HTTP 200 with a parseable
JSON body". -/
theorem c4_counterexample :
    Radarr.check_connection "http://radarr.local" (HttpResult.resp 200 false) = true
    ∧ Readarr.check_connection "http://readarr.local" (HttpResult.resp 200 false) = true := by
  constructor <;> decide

/-- Claim C4 amended: `check_connection` never raises (it is a total
boolean), returns false on every failure (empty URL, missing scheme,
exception, error status), and returns true exactly when the URL is
non-empty with an explicit scheme and the GET yields a response whose
status survives `raise_for_status` (< 400) — regardless of whether the
body parses as JSON. Both clients behave identically. -/
theorem c4_check_connection_amended (api_url : String) (result : HttpResult) :
    Radarr.check_connection api_url result = Readarr.check_connection api_url result
    ∧ (Radarr.check_connection api_url result = true ↔
        (¬(api_url = "") ∧ hasScheme api_url = true ∧
         ∃ status jsonOk, result = HttpResult.resp status jsonOk ∧ status < 400)) := by
  refine ⟨rfl, ?_⟩
  by_cases h0 : api_url = ""
  · simp [Radarr.check_connection, h0]
  · by_cases hs : hasScheme api_url = true
    · cases result with
      | exc => simp [Radarr.check_connection, h0, hs]
      | resp status jsonOk =>
        constructor
        · intro htrue
          refine ⟨h0, hs, status, jsonOk, rfl, ?_⟩
          simp only [Radarr.check_connection, if_neg h0, hs, Bool.not_true,
            Bool.false_eq_true, if_false, raiseForStatusFails, Bool.not_eq_true',
            decide_eq_false_iff_not] at htrue
          omega
        · rintro ⟨-, -, s2, j2, heq, hlt⟩
          cases heq
          simp only [Radarr.check_connection, if_neg h0, hs, Bool.not_true,
            Bool.false_eq_true, if_false, raiseForStatusFails, Bool.not_eq_true',
            decide_eq_false_iff_not]
          omega
    · simp only [Bool.not_eq_true] at hs
      simp [Radarr.check_connection, h0, hs]

/-- Claim C6 counterexample: with dry-run enabled and a non-empty ID list,
the readarr client's `book_search` does not return any command ID — fixed
placeholder or otherwise: it raises `NameError` (its `arr_request` helper
calls `load_settings`, a name never imported in `readarr/api.py`, before
its `try` block) and so makes no network call for the wrong reason,
refuting "for every client ... returns a fixed placeholder command ID". -/
theorem c6_counterexample :
    Readarr.book_search true [1] = (false, "NameError") := rfl

/-- Claim C6 amended: the movie client's `movie_search` is the one trigger
that implements the dry-run short-circuit: with dry-run enabled and a
non-empty ID list it makes no network call and returns the fixed
placeholder command ID 999999.  The readarr client's `book_search` consults
no dry-run flag and cannot trigger anything at all: every call raises
`NameError` (un-imported `load_settings` in `arr_request`) before any
network activity, returning no command ID. -/
theorem c6_dry_run_amended (movie_ids : List Int) (postResp : Option Nat)
    (h : ¬(movie_ids = [])) (dryRun : Bool) (book_ids : List Int) :
    Radarr.movie_search true movie_ids postResp = (false, some 999999)
    ∧ Readarr.book_search dryRun book_ids = (false, "NameError") := by
  refine ⟨?_, rfl⟩
  simp [Radarr.movie_search, h]

/-- Witness for C6 amended at IDs [5]. -/
theorem c6_dry_run_amended_witness :
    Radarr.movie_search true [5] none = (false, some 999999)
    ∧ Readarr.book_search true [5] = (false, "NameError") :=
  c6_dry_run_amended [5] none (by decide) true [5]

/-- Claim C1 counterexample: the radarr upgrade processor applies no dedup
filtering (`unprocessed_movies = upgrade_eligible_data`), so even when every
ID is recorded as processed in the dedup store (here the store that reports
every string processed), the movie with ID 1 is still selected and
triggered — refuting "for EVERY quality-upgrade processor ... an
already-processed ID is never among the items selected". -/
theorem c1_counterexample :
    (fun _ : String => true) (toString (1 : Int)) = true
    ∧ ({ id := 1 } : Movie) ∈
        Radarr.selectUpgradeMovies false [{ id := 1 }] (Radarr.unprocessedMovies [{ id := 1 }]) 1 := by
  refine ⟨rfl, ?_⟩
  decide

/-- Claim C1 amended: the lidarr and readarr quality-upgrade processors
exclude every candidate whose ID is recorded as processed for the
(integration, instance) before selection, so an already-processed ID is
never among the items selected and triggered; the radarr upgrade processor
performs no such exclusion. -/
theorem c1_upgrade_dedup (is_processed : String → Bool)
    (cutoff_unmet_albums shuffledAlbums : List LidarrAlbum) (huntAlbums : Nat)
    (hA : shuffledAlbums.Perm (Lidarr.unprocessedAlbums is_processed cutoff_unmet_albums))
    (processed_upgrade_ids : List Int) (upgrade_books shuffledBooks : List Book)
    (randomBooks : Bool) (huntBooks : Nat)
    (hB : shuffledBooks.Perm (ReadarrUp.unprocessedBooks processed_upgrade_ids upgrade_books)) :
    ((Lidarr.selectUpgradeAlbums shuffledAlbums
        (Lidarr.unprocessedAlbums is_processed cutoff_unmet_albums) huntAlbums).all
      (fun album => !(is_processed (toString album.id))) = true)
    ∧ ((ReadarrUp.booksToProcess randomBooks shuffledBooks
        (ReadarrUp.unprocessedBooks processed_upgrade_ids upgrade_books) huntBooks).all
      (fun book => !(processed_upgrade_ids.contains book.id)) = true) := by
  constructor
  · rw [List.all_eq_true]
    intro album hmem
    simp only [Lidarr.selectUpgradeAlbums, pySample] at hmem
    have h1 : album ∈ shuffledAlbums := List.Sublist.mem hmem (List.take_sublist _ _)
    have h2 : album ∈ Lidarr.unprocessedAlbums is_processed cutoff_unmet_albums :=
      hA.mem_iff.mp h1
    simp only [Lidarr.unprocessedAlbums, List.mem_filter] at h2
    exact h2.2
  · rw [List.all_eq_true]
    intro book hmem
    simp only [ReadarrUp.booksToProcess] at hmem
    have h1 : book ∈ ReadarrUp.orderBooks randomBooks shuffledBooks
        (ReadarrUp.unprocessedBooks processed_upgrade_ids upgrade_books) :=
      List.Sublist.mem hmem (List.take_sublist _ _)
    have h2 : book ∈ ReadarrUp.unprocessedBooks processed_upgrade_ids upgrade_books := by
      cases randomBooks with
      | false =>
        simp only [ReadarrUp.orderBooks, Bool.false_eq_true, if_false] at h1
        exact (List.perm_insertionSort titleLe _).mem_iff.mp h1
      | true =>
        simp only [ReadarrUp.orderBooks, if_true] at h1
        exact hB.mem_iff.mp h1
    simp only [ReadarrUp.unprocessedBooks, List.mem_filter] at h2
    exact h2.2

/-- Witness for C1 amended: the dedup store records id "5"; album 5 is
filtered out before selection and book 1 (in the processed list) likewise. -/
theorem c1_upgrade_dedup_witness :
    ((Lidarr.selectUpgradeAlbums (Lidarr.unprocessedAlbums exIsProcessed exAlbums)
        (Lidarr.unprocessedAlbums exIsProcessed exAlbums) 1).all
      (fun album => !(exIsProcessed (toString album.id))) = true)
    ∧ ((ReadarrUp.booksToProcess false (ReadarrUp.unprocessedBooks exProcessedIds exBooks)
        (ReadarrUp.unprocessedBooks exProcessedIds exBooks) 1).all
      (fun book => !(exProcessedIds.contains book.id)) = true) :=
  c1_upgrade_dedup exIsProcessed exAlbums _ 1 (List.Perm.refl _)
    exProcessedIds exBooks _ false 1 (List.Perm.refl _)

/-- Claim C2: with hunt quota N > 0 and post-filter pools larger than N,
each processor selects exactly N items — in random mode (sampling without
replacement, modelled as the prefix of a permutation) and in sequential
mode (prefix of the pool's order) — and the radarr trigger loop issues at
most N searches, exactly N when no stop signal fires. -/
theorem c2_quota_selection (N : Nat) (hN : 0 < N)
    (rL : Bool) (poolL shuffledL : List Int)
    (hpL : shuffledL.Perm poolL) (hML : N < poolL.length)
    (rR : Bool) (poolR shuffledR : List Movie)
    (hpR : shuffledR.Perm poolR) (hMR : N < poolR.length)
    (rB : Bool) (poolB shuffledB : List Book)
    (hpB : shuffledB.Perm poolB) (hMB : N < poolB.length)
    (stop : Nat → Bool) (searchOk : Movie → Bool) :
    (Lidarr.selectMissingEntities rL shuffledL poolL N).length = N
    ∧ (Radarr.selectUpgradeMovies rR shuffledR poolR N).length = N
    ∧ (ReadarrUp.booksToProcess rB shuffledB poolB N).length = N
    ∧ Radarr.upgradeSearchCalls stop searchOk N 0 0
        (Radarr.selectUpgradeMovies rR shuffledR poolR N) ≤ N
    ∧ ((∀ k, stop k = false) →
        Radarr.upgradeSearchCalls stop searchOk N 0 0
          (Radarr.selectUpgradeMovies rR shuffledR poolR N) = N) := by
  have hlenL : shuffledL.length = poolL.length := hpL.length_eq
  have hlenR : shuffledR.length = poolR.length := hpR.length_eq
  have hlenB : shuffledB.length = poolB.length := hpB.length_eq
  have hselL : (Lidarr.selectMissingEntities rL shuffledL poolL N).length = N := by
    cases rL <;>
      simp only [Lidarr.selectMissingEntities, pySample, Bool.false_eq_true, if_false,
        if_true, List.length_take] <;>
      omega
  have hselR : (Radarr.selectUpgradeMovies rR shuffledR poolR N).length = N := by
    cases rR <;>
      simp only [Radarr.selectUpgradeMovies, pySample, Bool.false_eq_true, if_false,
        if_true, List.length_take] <;>
      omega
  have hselB : (ReadarrUp.booksToProcess rB shuffledB poolB N).length = N := by
    have hord : (ReadarrUp.orderBooks rB shuffledB poolB).length = poolB.length := by
      cases rB with
      | false =>
        simp only [ReadarrUp.orderBooks, Bool.false_eq_true, if_false]
        exact (List.perm_insertionSort titleLe poolB).length_eq
      | true =>
        simpa [ReadarrUp.orderBooks] using hlenB
    simp only [ReadarrUp.booksToProcess, List.length_take, hord]
    omega
  refine ⟨hselL, hselR, hselB, ?_, ?_⟩
  · have h1 := upgradeSearchCalls_le stop searchOk N
      (Radarr.selectUpgradeMovies rR shuffledR poolR N) 0 0
    rw [hselR] at h1
    exact h1
  · intro hstop
    rw [upgradeSearchCalls_eq stop searchOk N hstop _ 0 0 (by rw [hselR]; omega)]
    exact hselR

/-- Witness for C2 at N = 1 over two-element pools. -/
theorem c2_quota_selection_witness :
    (Lidarr.selectMissingEntities false [10, 20] [10, 20] 1).length = 1
    ∧ (Radarr.selectUpgradeMovies false [{ id := 1 }, { id := 2 }]
        [{ id := 1 }, { id := 2 }] 1).length = 1
    ∧ (ReadarrUp.booksToProcess false exBooks exBooks 1).length = 1
    ∧ Radarr.upgradeSearchCalls (fun _ => false) (fun _ => true) 1 0 0
        (Radarr.selectUpgradeMovies false [{ id := 1 }, { id := 2 }]
          [{ id := 1 }, { id := 2 }] 1) ≤ 1
    ∧ Radarr.upgradeSearchCalls (fun _ => false) (fun _ => true) 1 0 0
        (Radarr.selectUpgradeMovies false [{ id := 1 }, { id := 2 }]
          [{ id := 1 }, { id := 2 }] 1) = 1 := by
  have h := c2_quota_selection 1 (by decide) false [10, 20] [10, 20] (List.Perm.refl _)
    (by decide) false [{ id := 1 }, { id := 2 }] [{ id := 1 }, { id := 2 }]
    (List.Perm.refl _) (by decide) false exBooks exBooks (List.Perm.refl _) (by decide)
    (fun _ => false) (fun _ => true)
  exact ⟨h.1, h.2.1, h.2.2.1, h.2.2.2.1, h.2.2.2.2 (fun _ => rfl)⟩

/-- Claim C5 counterexample: with `skip_future_releases` set, a date string
that parses to an offset-naive datetime — here the plain-format
`"2100-01-01"`, a format the spec itself names — reaches the comparison
`release_date <= now` against the aware `now` and raises `TypeError`,
which the `except ValueError` handler does not catch; the whole
`process_missing_albums` aborts (the filter result is `none`) and nothing
is kept.  In particular the co-present candidate without a release date is
NOT kept, refuting "keeps every candidate whose release date is absent". -/
theorem c5_counterexample :
    ({ id := 2, releaseDate := none } : LidarrAlbum) ∈ exNaiveAlbums
    ∧ Lidarr.filterFutureAlbums true exParseNaive 0 exNaiveAlbums = none := by
  constructor
  · decide
  · rfl

/-- Claim C5 amended: with `skip_future_releases` set, provided no
release-date string parses to an offset-naive moment (such a string raises
an uncaught `TypeError` in the aware/naive comparison, aborting the whole
cycle with nothing kept), the filter completes, and it excludes every
candidate whose non-empty date string parses (offset-aware) to a moment
strictly after `now`, keeps every candidate without a release date, and
keeps (with a logged warning; logging not modelled) every candidate whose
date string raises `ValueError`.  An empty date string is falsy in Python
and takes the no-date branch, hence the non-emptiness side conditions. -/
theorem c5_future_filter (parse : String → Lidarr.PyDate) (now : Int)
    (missing_items : List LidarrAlbum)
    (hna : ∀ a ∈ missing_items, ∀ s, a.releaseDate = some s → ¬(s = "") →
      ¬(parse s = Lidarr.PyDate.naive)) :
    ¬(Lidarr.filterFutureAlbums true parse now missing_items = none)
    ∧ ∀ kept, Lidarr.filterFutureAlbums true parse now missing_items = some kept →
        (∀ a ∈ missing_items, ∀ s t, a.releaseDate = some s → ¬(s = "") →
          parse s = Lidarr.PyDate.aware t → now < t → a ∉ kept)
        ∧ (∀ a ∈ missing_items, a.releaseDate = none → a ∈ kept)
        ∧ (∀ a ∈ missing_items, ∀ s, a.releaseDate = some s → ¬(s = "") →
          parse s = Lidarr.PyDate.valueError → a ∈ kept) := by
  constructor
  · simp only [Lidarr.filterFutureAlbums, if_true]
    apply filterFutureLoop_total parse now missing_items
    intro a ha hk
    cases hdate : a.releaseDate with
    | none => simp [Lidarr.keepAlbum, hdate] at hk
    | some s =>
      by_cases hne : s = ""
      · simp [Lidarr.keepAlbum, hdate, hne] at hk
      · cases hp : parse s with
        | valueError => simp [Lidarr.keepAlbum, hdate, hne, hp] at hk
        | naive => exact hna a ha s hdate hne hp
        | aware t => simp [Lidarr.keepAlbum, hdate, hne, hp] at hk
  · intro kept hres
    simp only [Lidarr.filterFutureAlbums, if_true] at hres
    refine ⟨?_, ?_, ?_⟩
    · intro a _ s t hdate hne hparse hfut hmem
      have hk := (filterFutureLoop_mem_keep parse now missing_items kept hres a hmem).2
      simp only [Lidarr.keepAlbum, hdate, if_neg hne, hparse, Option.some.injEq] at hk
      simp only [decide_eq_true_eq] at hk
      omega
    · intro a ha hdate
      refine filterFutureLoop_keep_mem parse now missing_items kept hres a ha ?_
      simp [Lidarr.keepAlbum, hdate]
    · intro a ha s hdate hne hparse
      refine filterFutureLoop_keep_mem parse now missing_items kept hres a ha ?_
      simp only [Lidarr.keepAlbum, hdate]
      rw [if_neg hne, hparse]

/-- Witness for C5 amended: with only aware-parsing or `ValueError` dates
the filter completes; the aware future-dated album is dropped while the
undated and unparsable-date albums are kept. -/
theorem c5_future_filter_witness :
    Lidarr.filterFutureAlbums true exParseAware 0 exAwareAlbums = some exKeptAlbums
    ∧ ({ id := 1, releaseDate := some "2100-01-01T00:00:00Z" } : LidarrAlbum) ∉ exKeptAlbums
    ∧ ({ id := 2, releaseDate := none } : LidarrAlbum) ∈ exKeptAlbums
    ∧ ({ id := 3, releaseDate := some "notadate" } : LidarrAlbum) ∈ exKeptAlbums := by
  have hna : ∀ a ∈ exAwareAlbums, ∀ s, a.releaseDate = some s → ¬(s = "") →
      ¬(exParseAware s = Lidarr.PyDate.naive) := by
    intro a ha s hs hne
    fin_cases ha
    · injection hs with h2
      subst h2
      decide
    · exact Option.noConfusion hs
    · injection hs with h2
      subst h2
      decide
  have h := c5_future_filter exParseAware 0 exAwareAlbums hna
  have hres : Lidarr.filterFutureAlbums true exParseAware 0 exAwareAlbums
      = some exKeptAlbums := by decide
  refine ⟨hres, ?_, ?_, ?_⟩
  · exact (h.2 exKeptAlbums hres).1 _ (by decide) "2100-01-01T00:00:00Z" 100 rfl
      (by decide) (by decide) (by decide)
  · exact (h.2 exKeptAlbums hres).2.1 _ (by decide) rfl
  · exact (h.2 exKeptAlbums hres).2.2 _ (by decide) "notadate" rfl (by decide) (by decide)

/-- Claim C7: for a test-connection request with a well-formed URL and key,
a timeout yields HTTP 504; a DNS-resolution failure (a `ConnectionError`
whose text carries one of the two DNS markers the handler checks) yields
HTTP 502 with the DNS-resolution message; and a 401 from the manager yields
an error body whose message starts with "Authentication failed: Invalid API
key" — so it contains "Invalid API key". Both the sonarr and whisparr
handlers are covered. -/
theorem c7_test_connection_categories
    (api_url api_key : String) (api_timeout : Nat) (excStr details : String)
    (jsonParses : Bool) (msgField bodyText : String)
    (hu : ¬(api_url = "")) (hk : ¬(api_key = "")) (hs : hasScheme api_url = true)
    (hdns : (strContains details "Name or service not known"
             || strContains details "getaddrinfo failed") = true) :
    (SonarrRoute.test_connection api_url api_key api_timeout excStr ReqOutcome.timeout).1 = 504
    ∧ (WhisparrRoute.test_connection api_url api_key api_timeout excStr ReqOutcome.timeout).1 = 504
    ∧ SonarrRoute.test_connection api_url api_key api_timeout excStr
        (ReqOutcome.connError details)
      = (502, "DNS resolution failed - check hostname" ++ ": " ++ details)
    ∧ WhisparrRoute.test_connection api_url api_key api_timeout excStr
        (ReqOutcome.connError details)
      = (502, "DNS resolution failed - check hostname" ++ ": " ++ details)
    ∧ (SonarrRoute.test_connection api_url api_key api_timeout excStr
        (ReqOutcome.resp 401 jsonParses msgField bodyText)).2
      = "Authentication failed: Invalid API key" ++ httpErrorSuffix jsonParses msgField bodyText
    ∧ (WhisparrRoute.test_connection api_url api_key api_timeout excStr
        (ReqOutcome.resp 401 jsonParses msgField bodyText)).2
      = "Authentication failed: Invalid API key" ++ httpErrorSuffix jsonParses msgField bodyText := by
  refine ⟨?_, ?_, ?_, ?_, ?_, ?_⟩ <;>
    simp [SonarrRoute.test_connection, WhisparrRoute.test_connection, hu, hk, hs,
      connErrorMessage, hdns, raiseForStatusFails, httpErrorMessage]

/-- Witness for C7 with a concrete URL, key, and DNS-failure detail text. -/
theorem c7_test_connection_witness :
    (SonarrRoute.test_connection "http://sonarr:8989" "k" 30 "" ReqOutcome.timeout).1 = 504
    ∧ (WhisparrRoute.test_connection "http://sonarr:8989" "k" 30 "" ReqOutcome.timeout).1 = 504
    ∧ SonarrRoute.test_connection "http://sonarr:8989" "k" 30 ""
        (ReqOutcome.connError "Name or service not known")
      = (502, "DNS resolution failed - check hostname" ++ ": " ++ "Name or service not known")
    ∧ WhisparrRoute.test_connection "http://sonarr:8989" "k" 30 ""
        (ReqOutcome.connError "Name or service not known")
      = (502, "DNS resolution failed - check hostname" ++ ": " ++ "Name or service not known")
    ∧ (SonarrRoute.test_connection "http://sonarr:8989" "k" 30 ""
        (ReqOutcome.resp 401 true "No details" "")).2
      = "Authentication failed: Invalid API key" ++ httpErrorSuffix true "No details" ""
    ∧ (WhisparrRoute.test_connection "http://sonarr:8989" "k" 30 ""
        (ReqOutcome.resp 401 true "No details" "")).2
      = "Authentication failed: Invalid API key" ++ httpErrorSuffix true "No details" "" :=
  c7_test_connection_categories "http://sonarr:8989" "k" 30 "" "Name or service not known"
    true "No details" "" (by decide) (by decide) (by decide) (by decide)

/-- Claim C8: the streaming search variant's output is a block of at most 20
basic results — sorted by popularity descending, each with status
"checking" — followed by the availability updates, one per basic result in
the same order: every basic result precedes every update, and the i-th
update carries the same tmdb id as the i-th basic result. -/
theorem c8_stream_structure (avail : Int → String → String) (app_type : String)
    (results : List CatalogItem) :
    Requestarr.search_media_with_availability_stream avail app_type results
      = (Requestarr.sortedCapped app_type results).map StreamEvent.basic
        ++ (Requestarr.sortedCapped app_type results).map
            (fun b => StreamEvent.update { b with availability := avail b.tmdb_id b.media_type })
    ∧ (Requestarr.sortedCapped app_type results).length ≤ 20
    ∧ ((Requestarr.sortedCapped app_type results).all
        (fun b => b.availability = "checking") = true)
    ∧ List.Pairwise popLe (Requestarr.sortedCapped app_type results)
    ∧ ((Requestarr.sortedCapped app_type results).map
        (fun b => StreamEvent.update { b with availability := avail b.tmdb_id b.media_type })).map eventId
      = ((Requestarr.sortedCapped app_type results).map StreamEvent.basic).map eventId := by
  refine ⟨rfl, ?_, ?_, ?_, ?_⟩
  · simp only [Requestarr.sortedCapped, List.length_take]
    exact min_le_left _ _
  · rw [List.all_eq_true]
    intro b hb
    have h1 : b ∈ List.insertionSort popLe (Requestarr.processedItems app_type results) :=
      List.Sublist.mem hb (List.take_sublist _ _)
    have h2 : b ∈ Requestarr.processedItems app_type results :=
      (List.perm_insertionSort popLe _).mem_iff.mp h1
    simp only [Requestarr.processedItems, List.mem_map] at h2
    obtain ⟨item, -, rfl⟩ := h2
    exact decide_eq_true rfl
  · have hs := List.sorted_insertionSort popLe (Requestarr.processedItems app_type results)
    exact List.Pairwise.sublist (List.take_sublist _ _) hs
  · simp [List.map_map, Function.comp, eventId]

/-- Claim C9 counterexample: the sonarr resolver returns an enabled instance
with a scheme-less URL completely unchanged — no `http://` is prepended —
refuting "for EVERY integration's instance resolver ... every returned
instance has ... a URL with an explicit scheme". -/
theorem c9_counterexample :
    Sonarr.get_configured_instances
      { instances := some [{ enabled := some true, api_url := some "myhost:8989",
                             api_key := some "k", name := none }],
        api_url := none, api_key := none }
      = [{ instance_name := "Default", api_url := "myhost:8989", api_key := "k" }]
    ∧ hasScheme "myhost:8989" = false := by
  constructor
  · rfl
  · decide

/-- Claim C9 amended: the readarr resolver auto-prepends `http://` to a
non-empty scheme-less URL (with a logged warning) rather than dropping the
entry, and every instance it returns has a non-empty key and a URL with an
explicit scheme; the sonarr resolver copies URLs through without any scheme
correction. -/
theorem mem_ite_lists {α : Type} {c : Prop} [Decidable c] {l1 l2 : List α} {r : α}
    (hr : r ∈ (if c then l1 else l2)) : (c ∧ r ∈ l1) ∨ (¬c ∧ r ∈ l2) := by
  by_cases h : c
  · rw [if_pos h] at hr; exact Or.inl ⟨h, hr⟩
  · rw [if_neg h] at hr; exact Or.inr ⟨h, hr⟩

/-- Every member of the readarr resolver's legacy singleton satisfies the
scheme/non-emptiness invariant. -/
theorem readarr_legacy_invariant (url0 key0 : Option String) (r : ResolvedInstance)
    (hr : r ∈ (if !(fixScheme (trimStr (url0.getD "")) = "") && !(trimStr (key0.getD "") = "") then
        ([{ instance_name := "Default", api_url := fixScheme (trimStr (url0.getD "")),
            api_key := trimStr (key0.getD "") }] : List ResolvedInstance)
      else [])) :
    ¬(r.api_key = "") ∧ ¬(r.api_url = "") ∧ hasScheme r.api_url = true := by
  rcases mem_ite_lists hr with ⟨hcond, hmem⟩ | ⟨-, hmem⟩
  · simp only [Bool.and_eq_true, Bool.not_eq_true', decide_eq_false_iff_not] at hcond
    rw [List.mem_singleton] at hmem
    subst hmem
    exact ⟨hcond.2, hcond.1, fixScheme_hasScheme _ hcond.1⟩
  · cases hmem

/-- Claim C9 amended: the readarr resolver auto-prepends `http://` to a
non-empty scheme-less URL (with a logged warning) rather than dropping the
entry, and every instance it returns has a non-empty key and a URL with an
explicit scheme; the sonarr resolver copies URLs through without any scheme
correction. -/
theorem c9_resolver_scheme (u : String) (hu : ¬(u = "")) (hns : hasScheme u = false)
    (settings : AppSettingsDoc) :
    fixScheme u = "http://" ++ u
    ∧ ∀ r ∈ ReadarrCfg.get_configured_instances settings,
        ¬(r.api_key = "") ∧ ¬(r.api_url = "") ∧ hasScheme r.api_url = true := by
  constructor
  · simp [fixScheme, hu, hns]
  · intro r hr
    simp only [ReadarrCfg.get_configured_instances] at hr
    cases hset : settings.instances with
    | none =>
      simp only [hset] at hr
      exact readarr_legacy_invariant settings.api_url settings.api_key r hr
    | some insts =>
      simp only [hset] at hr
      rcases mem_ite_lists hr with ⟨-, hleg⟩ | ⟨-, hfm⟩
      · exact readarr_legacy_invariant settings.api_url settings.api_key r hleg
      · rw [List.mem_filterMap] at hfm
        obtain ⟨i, -, hi⟩ := hfm
        by_cases hcond : ((i.enabled.getD true) && !(fixScheme (trimStr (i.api_url.getD "")) = "")
            && !(trimStr (i.api_key.getD "") = "")) = true
        · rw [if_pos hcond] at hi
          simp only [Bool.and_eq_true, Bool.not_eq_true', decide_eq_false_iff_not] at hcond
          cases hi
          exact ⟨hcond.2, hcond.1.2, fixScheme_hasScheme _ hcond.1.2⟩
        · rw [if_neg hcond] at hi
          cases hi

/-- Witness for C9 amended: prepending on "myhost", and the invariant on the
single instance the readarr resolver returns for a scheme-less entry. -/
theorem c9_resolver_scheme_witness :
    fixScheme "myhost" = "http://" ++ "myhost"
    ∧ (¬(("k" : String) = "") ∧ ¬(("http://myhost:8787" : String) = "")
        ∧ hasScheme "http://myhost:8787" = true) :=
  ⟨(c9_resolver_scheme "myhost" (by decide) (by decide)
      { instances := none, api_url := none, api_key := none }).1,
   (c9_resolver_scheme "myhost" (by decide) (by decide)
      { instances := some [{ enabled := some true, api_url := some "myhost:8787",
                             api_key := some "k", name := none }],
        api_url := none, api_key := none }).2
     { instance_name := "Default", api_url := "http://myhost:8787", api_key := "k" }
     (by decide)⟩

/-- Witness for C4 amended: a 204 with parseable body gives true on both
clients (status < 400), via the amended characterization. -/
theorem c4_check_connection_amended_witness :
    Radarr.check_connection "http://radarr.local" (HttpResult.resp 204 true)
      = Readarr.check_connection "http://radarr.local" (HttpResult.resp 204 true)
    ∧ Radarr.check_connection "http://radarr.local" (HttpResult.resp 204 true) = true :=
  ⟨(c4_check_connection_amended "http://radarr.local" (HttpResult.resp 204 true)).1,
   (c4_check_connection_amended "http://radarr.local" (HttpResult.resp 204 true)).2.mpr
     ⟨by decide, by decide, 204, true, rfl, by decide⟩⟩
